import Mathlib

/-!
Shallow embedding of `rover.h` (JNP1-Rover): a rover on an integer grid
executing single-character commands (moves, rotations, composites), with
pluggable safety sensors that can veto a move.

Translation notes:
* `coordinate_t` (`int32_t`) and the `int` direction components are embedded
  as `Int`; no claim here depends on fixed-width wraparound (signed overflow
  is undefined behaviour in the source anyway).
* A `Sensor` is embedded by its `is_safe` predicate, a pure function
  `Int → Int → Bool`; the rover holds a list of them, in registration order.
* The `Operation` class hierarchy (MoveForward, MoveBackward, RotateLeft,
  RotateRight, Compose) becomes a closed inductive type; the virtual
  `execute` becomes `Operation.execute`.
* `Rover::execute` throws `RoverNotLanded` when not landed; it is embedded
  as a function returning the resulting rover together with a `Bool` that
  is `true` exactly when the exception is thrown (in which case the rover
  is returned unchanged, matching the fact that the source throws before
  touching any state).
-/

/-- The `is_safe` predicate of one `Sensor` (source lines 51–55). -/
def SensorFn : Type := Int → Int → Bool

/-- `State` (source lines 57–89): coordinates, direction vector, stop flag. -/
structure State where
  x : Int
  y : Int
  direction : Int × Int
  stopped : Bool
deriving DecidableEq, Repr

/-- `Rover::danger_exists` (source lines 133–139): walk the sensors in
order, return `true` at the first sensor whose `is_safe` is `false`,
`false` if none objects. -/
def danger_exists (sensors : List SensorFn) (x y : Int) : Bool :=
  match sensors with
  | [] => false
  | s :: rest => if s x y then danger_exists rest x y else true

/-- The `Operation` hierarchy (source lines 44–49, 189–283) as a closed
variant: the only concrete operations are the two moves, the two
rotations, and `Compose` over a list of children. -/
inductive Operation where
  | moveForward
  | moveBackward
  | rotateLeft
  | rotateRight
  | compose (children : List Operation)

/-- `Move::execute_move` (source lines 210–232): candidate cell is the
position plus (forward) or minus (backward) the direction vector; if the
sensors report danger there, keep the position and raise `stopped`,
otherwise move there with `stopped = false`. Direction is carried over. -/
def execute_move (sensors : List SensorFn) (st : State) (forward : Bool) : State :=
  let new_x : Int := if forward then st.x + st.direction.1 else st.x - st.direction.1
  let new_y : Int := if forward then st.y + st.direction.2 else st.y - st.direction.2
  if danger_exists sensors new_x new_y then
    { x := st.x, y := st.y, direction := st.direction, stopped := true }
  else
    { x := new_x, y := new_y, direction := st.direction, stopped := false }

/-- `Rotate::execute_rotate` (source lines 253–268): position kept,
`stopped` written as `false`, direction `(dx,dy)` becomes `(dy,-dx)`
clockwise and `(-dy,dx)` counter-clockwise. The sensors are never
consulted. -/
def execute_rotate (st : State) (clockwise : Bool) : State :=
  let d := st.direction
  let direction : Int × Int := if clockwise then (d.2, -d.1) else (-d.2, d.1)
  { x := st.x, y := st.y, direction := direction, stopped := false }

mutual

/-- The virtual `Operation::execute`, dispatched over the closed variant
(source lines 197–203, 237–239, 244–246, 273–275, 280–282). -/
def Operation.execute (sensors : List SensorFn) : Operation → State → State
  | .moveForward, st => execute_move sensors st true
  | .moveBackward, st => execute_move sensors st false
  | .rotateLeft, st => execute_rotate st false
  | .rotateRight, st => execute_rotate st true
  | .compose children, st => composeExec sensors children st

/-- The loop body of `Compose::execute` (source lines 197–203): run the
children in order, breaking as soon as the current state is stopped. -/
def composeExec (sensors : List SensorFn) : List Operation → State → State
  | [], st => st
  | op :: rest, st =>
    if st.stopped then st
    else composeExec sensors rest (Operation.execute sensors op st)

end

/-- `Rover` (source lines 94–165): sensors, current state, the
char → operation registry, and the `landed` flag. The `unordered_map`
is embedded as a partial lookup function. -/
structure Rover where
  sensors : List SensorFn
  state : State
  operations : Char → Option Operation
  landed : Bool

/-- `Rover::land` (source lines 108–116): unconditionally mark landed and
install a fresh state at the given coordinates and direction with
`stopped = false`. -/
def Rover.land (r : Rover) (coordinates : Int × Int) (direction : Int × Int) : Rover :=
  { r with
    landed := true
    state := { x := coordinates.1, y := coordinates.2, direction := direction, stopped := false } }

/-- The token loop of `Rover::execute` (source lines 124–130): for each
character in order, an unregistered token sets `stopped` and breaks;
a registered token runs its bound operation on the current state. -/
def execLoop (sensors : List SensorFn) (operations : Char → Option Operation) :
    List Char → State → State
  | [], st => st
  | c :: rest, st =>
    match operations c with
    | none => { st with stopped := true }
    | some op => execLoop sensors operations rest (Operation.execute sensors op st)

/-- `Rover::execute` (source lines 118–131). The returned `Bool` is `true`
exactly when the source throws `RoverNotLanded`; the throw happens before
any mutation, so in that case the rover is returned unchanged. Otherwise
the stop flag is first cleared and the token loop runs. -/
def Rover.execute (r : Rover) (commands : List Char) : Rover × Bool :=
  if r.landed = false then (r, true)
  else
    ({ r with
       state := execLoop r.sensors r.operations commands { r.state with stopped := false } },
     false)

/-! ## Theorems about the embedded program -/

/-- C10: a `Compose` built from an empty child list is an identity
operation: executing it leaves position, direction and the stopped flag
unchanged, for every state including already-stopped ones. -/
theorem compose_empty_is_identity (sensors : List SensorFn) (st : State) :
    Operation.execute sensors (.compose []) st = st := by
  rfl

/-- C9: `land` unconditionally sets the landed flag and installs a fresh
state at the given coordinates and direction with `stopped = false`,
regardless of the prior state, prior landings or prior stop flag; sensors
and the command registry are untouched. -/
theorem land_installs_fresh_state (r : Rover) (coordinates direction : Int × Int) :
    (r.land coordinates direction).landed = true ∧
    (r.land coordinates direction).state =
      { x := coordinates.1, y := coordinates.2, direction := direction, stopped := false } ∧
    (r.land coordinates direction).sensors = r.sensors ∧
    (r.land coordinates direction).operations = r.operations := by
  refine ⟨rfl, rfl, rfl, rfl⟩

/-- C7: `RotateRight` maps the direction vector `(dx, dy)` to `(dy, -dx)`
and `RotateLeft` maps it to `(-dy, dx)`; four consecutive applications of
the same rotation restore the original direction exactly, from any
starting direction. -/
theorem rotate_formulas_and_order_four (sensors : List SensorFn) (st : State) :
    (Operation.execute sensors .rotateRight st).direction =
      (st.direction.2, -st.direction.1) ∧
    (Operation.execute sensors .rotateLeft st).direction =
      (-st.direction.2, st.direction.1) ∧
    (Operation.execute sensors .rotateRight (Operation.execute sensors .rotateRight
      (Operation.execute sensors .rotateRight
        (Operation.execute sensors .rotateRight st)))).direction = st.direction ∧
    (Operation.execute sensors .rotateLeft (Operation.execute sensors .rotateLeft
      (Operation.execute sensors .rotateLeft
        (Operation.execute sensors .rotateLeft st)))).direction = st.direction := by
  obtain ⟨x, y, ⟨dx, dy⟩, s⟩ := st
  simp [Operation.execute, execute_rotate]

/-- C6 counterexample: rotating a stopped state changes more than the
direction component: `execute_rotate` writes `stopped = false`
unconditionally, so on the stopped state at `(0,0)` facing NORTH the
resulting stopped flag differs from the input's. -/
theorem rotate_clears_stopped_counterexample :
    ¬ ((Operation.execute [] .rotateRight
          { x := 0, y := 0, direction := (0, 1), stopped := true }).stopped
        = (State.mk 0 0 (0, 1) true).stopped) := by
  decide

/-- C6 amended: rotations never consult the safety sensors (the result is
independent of the sensor list), carry the position over unchanged, and
never set the stopped flag to `true` — the resulting stopped flag is
always `false` (so a previously raised flag is cleared, which is the one
way a non-direction component can change). -/
theorem rotate_frame_effect (sensors sensors2 : List SensorFn) (st : State) :
    Operation.execute sensors .rotateLeft st = Operation.execute sensors2 .rotateLeft st ∧
    Operation.execute sensors .rotateRight st = Operation.execute sensors2 .rotateRight st ∧
    (Operation.execute sensors .rotateLeft st).x = st.x ∧
    (Operation.execute sensors .rotateLeft st).y = st.y ∧
    (Operation.execute sensors .rotateRight st).x = st.x ∧
    (Operation.execute sensors .rotateRight st).y = st.y ∧
    (Operation.execute sensors .rotateLeft st).stopped = false ∧
    (Operation.execute sensors .rotateRight st).stopped = false := by
  refine ⟨rfl, rfl, rfl, rfl, rfl, rfl, rfl, rfl⟩

/-! ## Sample configurations used by witnesses -/

/-- A sample sensor whose `is_safe` is `false` exactly at the cell (0, 1). -/
def blockCell01 : SensorFn := fun x y => !(decide (x = 0) && decide (y = 1))

/-- A sample registry binding the token F to `MoveForward` and nothing else. -/
def bindF : Char → Option Operation :=
  fun c => if c = 'F' then some .moveForward else none

/-- A freshly built rover that has never landed (default-constructed state,
as in the `Rover` constructor, source lines 102–106). -/
def freshRover : Rover :=
  { sensors := []
    state := { x := 0, y := 0, direction := (0, 0), stopped := false }
    operations := bindF
    landed := false }

/-- `freshRover` after landing at (0, 0) facing NORTH. -/
def landedRover : Rover := freshRover.land (0, 0) (0, 1)

/-! ## Remaining claim theorems -/

/-- C1: `MoveForward` (resp. `MoveBackward`) computes the candidate cell
`(x + dx, y + dy)` (resp. `(x - dx, y - dy)`) from the current direction
`(dx, dy)`; if the sensors report the candidate unsafe the resulting state
keeps `x`, `y` and the direction and has `stopped = true`; if safe, the
resulting state is at the candidate cell with the direction unchanged and
`stopped = false`. -/
theorem move_candidate_and_veto (sensors : List SensorFn) (st : State) :
    (danger_exists sensors (st.x + st.direction.1) (st.y + st.direction.2) = true →
      Operation.execute sensors .moveForward st =
        { x := st.x, y := st.y, direction := st.direction, stopped := true }) ∧
    (danger_exists sensors (st.x + st.direction.1) (st.y + st.direction.2) = false →
      Operation.execute sensors .moveForward st =
        { x := st.x + st.direction.1, y := st.y + st.direction.2,
          direction := st.direction, stopped := false }) ∧
    (danger_exists sensors (st.x - st.direction.1) (st.y - st.direction.2) = true →
      Operation.execute sensors .moveBackward st =
        { x := st.x, y := st.y, direction := st.direction, stopped := true }) ∧
    (danger_exists sensors (st.x - st.direction.1) (st.y - st.direction.2) = false →
      Operation.execute sensors .moveBackward st =
        { x := st.x - st.direction.1, y := st.y - st.direction.2,
          direction := st.direction, stopped := false }) := by
  refine ⟨fun h => ?_, fun h => ?_, fun h => ?_, fun h => ?_⟩ <;>
    simp [Operation.execute, execute_move, h]

/-- Witness for C1: with the sensor blocking (0, 1), a forward move from
(0, 0) facing NORTH is vetoed: position and direction are kept and the
stopped flag is raised. -/
theorem move_candidate_and_veto_witness :
    danger_exists [blockCell01] ((0 : Int) + 0) ((0 : Int) + 1) = true ∧
    Operation.execute [blockCell01] .moveForward
        { x := 0, y := 0, direction := (0, 1), stopped := false } =
      { x := 0, y := 0, direction := (0, 1), stopped := true } :=
  ⟨by decide,
   (move_candidate_and_veto [blockCell01]
      { x := 0, y := 0, direction := (0, 1), stopped := false }).1 (by decide)⟩

/-- C2: `Compose` applies its children strictly in order; each child runs
only if the current state has `stopped = false` when its turn comes, and a
state that is already stopped when the `Compose` begins runs no child at
all; `Compose` adds no effect of its own. -/
theorem compose_in_order_short_circuit (sensors : List SensorFn)
    (children rest : List Operation) (op : Operation) (st : State) :
    (st.stopped = true → Operation.execute sensors (.compose children) st = st) ∧
    (st.stopped = false →
      Operation.execute sensors (.compose (op :: rest)) st =
        Operation.execute sensors (.compose rest) (Operation.execute sensors op st)) := by
  constructor
  · intro h
    cases children with
    | nil => rfl
    | cons o os => simp [Operation.execute, composeExec, h]
  · intro h
    simp [Operation.execute, composeExec, h]

/-- Witness for C2: a state stopped before the `Compose` starts runs no
child — a contained rotation does not happen. -/
theorem compose_in_order_short_circuit_witness :
    (State.mk 0 0 (0, 1) true).stopped = true ∧
    Operation.execute [] (.compose [.rotateRight]) (State.mk 0 0 (0, 1) true) =
      State.mk 0 0 (0, 1) true :=
  ⟨rfl,
   (compose_in_order_short_circuit [] [.rotateRight] [] .rotateRight
      (State.mk 0 0 (0, 1) true)).1 rfl⟩

/-- C3: `execute` reports `RoverNotLanded` iff `land` has never been
called; when it is reported the rover is unchanged (no token processed);
`execute` never changes the landed flag, and after any `land` a later
`execute` never reports `RoverNotLanded`. -/
theorem execute_notLanded_iff (r : Rover) (commands : List Char) :
    ((r.execute commands).2 = true ↔ r.landed = false) ∧
    ((r.execute commands).2 = true → (r.execute commands).1 = r) ∧
    (r.execute commands).1.landed = r.landed ∧
    (∀ coordinates direction : Int × Int,
      ((r.land coordinates direction).execute commands).2 = false) := by
  cases hl : r.landed <;>
    simp [Rover.execute, Rover.land, hl]

/-- Witness for C3: a never-landed rover reports `RoverNotLanded` and is
returned unchanged. -/
theorem execute_notLanded_iff_witness :
    (freshRover.execute ['F']).2 = true ∧ (freshRover.execute ['F']).1 = freshRover :=
  ⟨(execute_notLanded_iff freshRover ['F']).1.mpr rfl,
   (execute_notLanded_iff freshRover ['F']).2.1
     ((execute_notLanded_iff freshRover ['F']).1.mpr rfl)⟩

/-- C4: an unregistered token sets the stopped flag and terminates the
whole remaining batch of that `execute` call; concretely, executing "FXF"
on a landed rover with F bound to `MoveForward`, X unbound and no hazards
advances the position by exactly one step (to (0, 1)), not two, and ends
stopped. -/
theorem unknown_token_halts_batch (sensors : List SensorFn)
    (operations : Char → Option Operation) (c : Char) (rest : List Char) (st : State)
    (h : operations c = none) :
    execLoop sensors operations (c :: rest) st = { st with stopped := true } ∧
    (landedRover.execute ['F', 'X', 'F']).1.state =
      { x := 0, y := 1, direction := (0, 1), stopped := true } := by
  constructor
  · simp [execLoop, h]
  · decide

/-- Witness for C4: the unbound token X sets the stopped flag and the
trailing token is never processed. -/
theorem unknown_token_halts_batch_witness :
    bindF 'X' = none ∧
    execLoop [] bindF ['X', 'F'] { x := 0, y := 1, direction := (0, 1), stopped := false } =
      { x := 0, y := 1, direction := (0, 1), stopped := true } :=
  ⟨rfl,
   (unknown_token_halts_batch [] bindF 'X' ['F']
      { x := 0, y := 1, direction := (0, 1), stopped := false } rfl).1⟩

/-- C5: the top-level dispatch loop never checks the stopped flag between
tokens: whatever the current state (in particular `stopped = true`), a
registered token's bound operation is still invoked on it; concretely, a
bare `MoveForward` bound to the next token after a stop executes normally,
moving the rover and clearing the flag. -/
theorem dispatch_ignores_stopped (sensors : List SensorFn)
    (operations : Char → Option Operation) (c : Char) (rest : List Char)
    (op : Operation) (st : State) (h : operations c = some op) :
    execLoop sensors operations (c :: rest) st =
      execLoop sensors operations rest (Operation.execute sensors op st) ∧
    execLoop [] bindF ['F'] { x := 0, y := 0, direction := (0, 1), stopped := true } =
      { x := 0, y := 1, direction := (0, 1), stopped := false } := by
  constructor
  · simp [execLoop, h]
  · decide

/-- Witness for C5: on a stopped state, the registered token F still has
`MoveForward` invoked rather than the loop halting. -/
theorem dispatch_ignores_stopped_witness :
    bindF 'F' = some .moveForward ∧
    execLoop [] bindF ['F'] { x := 0, y := 0, direction := (0, 1), stopped := true } =
      execLoop [] bindF []
        (Operation.execute [] .moveForward
          { x := 0, y := 0, direction := (0, 1), stopped := true }) :=
  ⟨rfl,
   (dispatch_ignores_stopped [] bindF 'F' [] .moveForward
      { x := 0, y := 0, direction := (0, 1), stopped := true } rfl).1⟩

/-- Helper for C8: `danger_exists` is true exactly when some registered
sensor reports the cell unsafe. -/
theorem danger_exists_iff_exists (sensors : List SensorFn) (x y : Int) :
    danger_exists sensors x y = true ↔ ∃ s ∈ sensors, s x y = false := by
  induction sensors with
  | nil => simp [danger_exists]
  | cons s rest ih =>
    cases hs : s x y with
    | false =>
      refine iff_of_true (by simp [danger_exists, hs]) ⟨s, List.mem_cons_self s rest, hs⟩
    | true =>
      simp only [danger_exists, hs, if_true, ih, List.mem_cons]
      constructor
      · rintro ⟨t, ht, hf⟩
        exact ⟨t, Or.inr ht, hf⟩
      · rintro ⟨t, ht | ht, hf⟩
        · rw [ht] at hf
          rw [hs] at hf
          cases hf
        · exact ⟨t, ht, hf⟩

/-- C8: `danger_exists(x, y)` is `true` iff at least one registered
sensor's `is_safe(x, y)` is `false` (a logical OR of hazards, `false`
when no sensor is registered), and for pure sensors the result does not
depend on the order of the sensor list: any permutation gives the same
answer. -/
theorem danger_exists_or_of_hazards (sensors : List SensorFn) (x y : Int) :
    (danger_exists sensors x y = true ↔ ∃ s ∈ sensors, s x y = false) ∧
    danger_exists [] x y = false ∧
    (∀ sensors2 : List SensorFn, sensors.Perm sensors2 →
      danger_exists sensors x y = danger_exists sensors2 x y) := by
  refine ⟨danger_exists_iff_exists sensors x y, rfl, fun sensors2 hp => ?_⟩
  rw [Bool.eq_iff_iff, danger_exists_iff_exists, danger_exists_iff_exists]
  exact ⟨fun ⟨s, hm, hf⟩ => ⟨s, hp.mem_iff.mp hm, hf⟩,
         fun ⟨s, hm, hf⟩ => ⟨s, hp.mem_iff.mpr hm, hf⟩⟩

/-- Witness for C8: with two concrete sensors, one vetoing (0, 1),
swapping the sensor order does not change `danger_exists` at (0, 1). -/
theorem danger_exists_or_of_hazards_witness :
    List.Perm [blockCell01, fun _ _ => true] [fun _ _ => true, blockCell01] ∧
    danger_exists [blockCell01, fun _ _ => true] 0 1 =
      danger_exists [fun _ _ => true, blockCell01] 0 1 :=
  ⟨List.Perm.swap (fun _ _ => true) blockCell01 [],
   (danger_exists_or_of_hazards [blockCell01, fun _ _ => true] 0 1).2.2
     [fun _ _ => true, blockCell01]
     (List.Perm.swap (fun _ _ => true) blockCell01 [])⟩
